import Mathlib

/-!
Formal model of the load balancer (`src/load-balancer`): per-instance state
(`instance.rs`), health checking with hysteresis, the three balancing
strategies (`strategy.rs`), single-attempt forwarding and the retry/dispatch
loop (`balancer.rs`), and the frontend handler (`main.rs`).

Modelling conventions: `std::time::Instant` is a `Nat` tick count;
`u32`/`u16`/`usize` are `Nat` (the only place where a `u32` bound matters is
`u32::MAX` used as the initial sentinel in `LeastConnections`, modelled by
`U32_MAX`); HTTP statuses are the `Nat` code; async effects (the actual
network send) are an explicit outcome parameter.
-/

namespace LB

/-- `u32::MAX`, the sentinel initial value of `least_connections` in
`LeastConnections::select_instance` (strategy.rs line 69). -/
def U32_MAX : Nat := 4294967295

/-- `InstanceSnapshot` (strategy.rs lines 4-8): value copy of
`(con_count, is_alive)` handed to a strategy. -/
structure Snapshot where
  con_count : Nat
  is_alive : Bool
deriving Repr, DecidableEq

/-- The selection-relevant state of one `Instance` (instance.rs lines 6-17).
`con_timeout` is irrelevant to the modelled logic and omitted;
`last_healthy` is an optional tick, `health_check_time_limit` a tick count. -/
structure Instance where
  base_url : String
  rest_port : Nat
  grpc_port : Nat
  health_check_time_limit : Nat
  con_count : Nat
  is_alive : Bool
  last_healthy : Option Nat
deriving Repr, DecidableEq

/-- `Instance::get_rest_url` (instance.rs lines 33-35):
`format!("{}:{}", self.base_url, self.rest_port)`. -/
def Instance.get_rest_url (i : Instance) : String :=
  i.base_url ++ ":" ++ toString i.rest_port

/-- `Instance::get_grpc_url` (instance.rs lines 37-39):
`format!("{}:{}", self.base_url, self.grpc_port)`. -/
def Instance.get_grpc_url (i : Instance) : String :=
  i.base_url ++ ":" ++ toString i.grpc_port

/-- The outbound URL composed in `try_forward_to_instance` (balancer.rs
line 76) and `try_forward_grpc_to_instance` (line 247):
`format!("{}{}", instance_url, path_and_query)`. -/
def outboundUrl (instance_url path_and_query : String) : String :=
  instance_url ++ path_and_query

/-- `http::StatusCode::is_success`: `200 ≤ s ≤ 299`. -/
def isSuccess (s : Nat) : Bool := 200 ≤ s && s ≤ 299

/-- `http::StatusCode::is_server_error`: `500 ≤ s ≤ 599`. -/
def isServerError (s : Nat) : Bool := 500 ≤ s && s ≤ 599

/-- Outcome of the health probe `client.get(&health_url).send().await`
in `Instance::health_check` (instance.rs line 49): either a response with
some status, or a transport error. -/
inductive ProbeResult where
  | response (status : Nat)
  | error
deriving Repr, DecidableEq

/-- `Instance::health_check` (instance.rs lines 41-76), with the probe
outcome and the current instant made explicit. On `Ok(response)` with a
non-success status the function logs and returns with no state change; on a
success status it sets `is_alive := true` and `last_healthy := now`; on
`Err(_)` it sets `is_alive := false` only when `last_healthy` is `Some lh`
and `now - lh > health_check_time_limit` (the `if let Some(lh) = ... &&`
chain at lines 66-73), otherwise changes nothing. -/
def Instance.health_check (i : Instance) (r : ProbeResult) (now : Nat) : Instance :=
  match r with
  | .response s =>
      if !(isSuccess s) then i
      else { i with is_alive := true, last_healthy := some now }
  | .error =>
      match i.last_healthy with
      | some lh => if now - lh > i.health_check_time_limit then { i with is_alive := false } else i
      | none => i

/-! ## Strategies (strategy.rs) -/

/-- `RoundRobin::select_instance` (strategy.rs lines 29-37), cursor passed
explicitly: returns the pair (selected index, new cursor). The selected index
is the raw cursor `idx_to_pick`; only the cursor update takes the modulus
`% snapshots.len()`. -/
def RoundRobin.select_instance (idx_to_pick : Nat) (snapshots : List Snapshot) :
    Nat × Nat :=
  (idx_to_pick, (idx_to_pick + 1) % snapshots.length)

/-- The cursor of `RoundRobin::new` (strategy.rs lines 24-26). -/
def RoundRobin.new : Nat := 0

/-- The `for (i, snapshot) in snapshots.iter().enumerate()` loop of
`LeastConnections::select_instance` (strategy.rs lines 72-77), with state
`(least_connections, idx)` and the running enumeration index `i`. -/
def lcLoop (i least idx : Nat) : List Snapshot → Nat × Nat
  | [] => (least, idx)
  | s :: rest =>
      if s.is_alive && s.con_count < least then lcLoop (i + 1) s.con_count i rest
      else lcLoop (i + 1) least idx rest

/-- `LeastConnections::select_instance` (strategy.rs lines 67-81):
`least_connections` starts at `u32::MAX`, `idx` at `0`; the final `idx` is
returned. -/
def LeastConnections.select_instance (snapshots : List Snapshot) : Nat :=
  (lcLoop 0 U32_MAX 0 snapshots).2

/-! ## Single forwarding attempt (balancer.rs) -/

/-- A relayed upstream response as rebuilt at balancer.rs lines 103-115:
status, headers, body bytes. -/
structure AxumResponse where
  status : Nat
  headers : List (String × String)
  body : List Nat
deriving Repr, DecidableEq

/-- Outcome of `tokio::time::timeout(self.con_timeout, client.request(...).send()).await`
(balancer.rs lines 78-86): the outer `Err(_)` is the timeout, `Ok(Err(_))` a
transport error, `Ok(Ok(response))` a response whose later `bytes()` read
either succeeds (`some body`) or fails (`none`). -/
inductive SendResult where
  | timeout
  | transportErr
  | response (status : Nat) (headers : List (String × String)) (body : Option (List Nat))
deriving Repr, DecidableEq

/-- `LoadBalancer::try_forward_to_instance` (balancer.rs lines 55-120), which
is line-for-line the same as `try_forward_grpc_to_instance` (lines 225-291)
except for `http2_prior_knowledge` on the client builder. `buildOk` is
whether `reqwest::Client::builder()...build()` succeeded; `r` the send
outcome. The second component traces the atomic counter operations on the
selected instance: (number of `fetch_add(1)` executed, number of
`fetch_sub(1)` executed). The `fetch_add` at lines 64-68 always runs; on a
build failure the `?` at line 74 returns `INTERNAL_SERVER_ERROR` before the
`fetch_sub` at lines 88-92 is reached. A response whose status
`is_server_error()` becomes `Err` of that status
(`StatusCode::from_u16(status.as_u16())` round-trips a valid status, so the
`unwrap_or(BAD_GATEWAY)` arm is inert); otherwise a failed `bytes()` read or
response rebuild gives `Err(INTERNAL_SERVER_ERROR)`, and success relays
status, headers and body. -/
def try_forward_to_instance (buildOk : Bool) (r : SendResult) :
    Except Nat AxumResponse × (Nat × Nat) :=
  if !buildOk then (.error 500, (1, 0))
  else
    match r with
    | .timeout => (.error 504, (1, 1))
    | .transportErr => (.error 502, (1, 1))
    | .response s h b =>
        if isServerError s then (.error s, (1, 1))
        else
          match b with
          | none => (.error 500, (1, 1))
          | some body => (.ok ⟨s, h, body⟩, (1, 1))

/-! ## Dispatch loop (balancer.rs `forward_request`, lines 122-223; the gRPC
variant `forward_grpc_request`, lines 293-399, is identical up to URLs). -/

/-- The `instances.iter().enumerate().filter_map(...)` snapshot build of
`forward_request` (balancer.rs lines 131-149): alive instances paired with
their fleet index, dead ones dropped. `idx` is the running enumeration
index. -/
def aliveSnapshotsAux (idx : Nat) : List Instance → List (Nat × Snapshot)
  | [] => []
  | i :: rest =>
      if i.is_alive then (idx, ⟨i.con_count, i.is_alive⟩) :: aliveSnapshotsAux (idx + 1) rest
      else aliveSnapshotsAux (idx + 1) rest

def aliveSnapshots (fleet : List Instance) : List (Nat × Snapshot) :=
  aliveSnapshotsAux 0 fleet

/-- The `for attempt in 0..=max_retries` loop of `forward_request`
(balancer.rs lines 161-220). `fuel` is the number of loop iterations still
permitted (initially `max_retries + 1`), so the code's `attempt < max_retries`
test on the retry path is `fuel' > 0` here. `sel` is the strategy behind its
mutex, threading state `st : σ`; `outcome` gives the result of
`try_forward_to_instance` for a fleet index (each index is forwarded to at
most once per request, so indexing outcomes by instance is faithful).
Returns the request result together with the number of forwarding attempts
performed. Running out of iterations, an empty candidate list, and an
out-of-range strategy index (log + `break`, lines 170-173) all fall through
to `Err(StatusCode::SERVICE_UNAVAILABLE)` at line 222. -/
def dispatchLoop {σ : Type} (sel : List Snapshot → σ → Nat × σ)
    (outcome : Nat → Except Nat AxumResponse) :
    Nat → List (Nat × Snapshot) → List Nat → σ → Except Nat AxumResponse × Nat
  | 0, _, _, _ => (.error 503, 0)
  | fuel + 1, alive, tried, st =>
      if alive.isEmpty then (.error 503, 0)
      else
        let p := sel (alive.map Prod.snd) st
        if hs : p.1 < alive.length then
          let actual := (alive.get ⟨p.1, hs⟩).1
          if actual ∈ tried then
            dispatchLoop sel outcome fuel (alive.eraseIdx p.1) tried p.2
          else
            match outcome actual with
            | .ok resp => (.ok resp, 1)
            | .error e =>
                if isServerError e then
                  if 0 < fuel then
                    let rest := dispatchLoop sel outcome fuel (alive.eraseIdx p.1)
                      (actual :: tried) p.2
                    (rest.1, rest.2 + 1)
                  else (.error e, 1)
                else (.error e, 1)
        else (.error 503, 0)

/-- `LoadBalancer::forward_request` (balancer.rs lines 122-223) after the
body has been buffered: build the alive snapshot list, fail with
`SERVICE_UNAVAILABLE` when it is empty, compute
`max_retries = min(self.max_retries ?? |alive|, |alive|)` (lines 155-158)
and run the retry loop with an empty `tried` set. -/
def forward_request {σ : Type} (sel : List Snapshot → σ → Nat × σ)
    (outcome : Nat → Except Nat AxumResponse) (max_retries : Option Nat)
    (fleet : List Instance) (st : σ) : Except Nat AxumResponse × Nat :=
  let alive := aliveSnapshots fleet
  if alive.isEmpty then (.error 503, 0)
  else
    let mr := min (max_retries.getD alive.length) alive.length
    dispatchLoop sel outcome (mr + 1) alive [] st

/-! ## Frontend handler (main.rs) -/

/-- The plain-text body attached by `proxy_handler` / `grpc_proxy_handler`
(main.rs lines 27 and 35). -/
def unavailableBody : String := "Service unavailable (no alive servers)"

/-- What a frontend handler writes back: either the upstream response
relayed verbatim, or a plain-text error response. -/
inductive HandlerResponse where
  | upstream (r : AxumResponse)
  | errorText (status : Nat) (body : String)
deriving Repr, DecidableEq

/-- `proxy_handler` (main.rs lines 23-29): an `Ok` response is returned
unchanged; an `Err(status)` becomes `(status, "Service unavailable (no alive
servers)").into_response()`. `grpc_proxy_handler` (lines 31-37) is
identical. -/
def proxy_handler (result : Except Nat AxumResponse) : HandlerResponse :=
  match result with
  | .ok r => .upstream r
  | .error s => .errorText s unavailableBody

/-! ## Helper lemmas -/

theorem aliveSnapshotsAux_eq_nil (fleet : List Instance) :
    ∀ idx, (∀ i ∈ fleet, i.is_alive = false) → aliveSnapshotsAux idx fleet = [] := by
  induction fleet with
  | nil => intro idx _; rfl
  | cons i rest ih =>
      intro idx h
      have hi : i.is_alive = false := h i (List.mem_cons_self i rest)
      simp only [aliveSnapshotsAux, hi, Bool.false_eq_true, if_false]
      exact ih (idx + 1) fun j hj => h j (List.mem_cons_of_mem i hj)

/-- The dispatch loop performs at most `fuel` forwarding attempts: every
iteration consumes one unit of fuel and forwards at most once. -/
theorem dispatchLoop_count_le_fuel {σ : Type} (sel : List Snapshot → σ → Nat × σ)
    (outcome : Nat → Except Nat AxumResponse) :
    ∀ (fuel : Nat) (alive : List (Nat × Snapshot)) (tried : List Nat) (st : σ),
      (dispatchLoop sel outcome fuel alive tried st).2 ≤ fuel := by
  intro fuel
  induction fuel with
  | zero => intro alive tried st; simp [dispatchLoop]
  | succ n ih =>
      intro alive tried st
      simp only [dispatchLoop]
      split
      · simp
      · split
        · split
          · exact (ih _ _ _).trans (Nat.le_succ n)
          · split
            · simp
            · split
              · split
                · exact Nat.succ_le_succ (ih _ _ _)
                · simp
              · simp
        · simp

/-- The dispatch loop performs at most `|alive|` forwarding attempts: each
forward (and each skip of an already-tried index) removes the selected entry
from the candidate list. -/
theorem dispatchLoop_count_le_length {σ : Type} (sel : List Snapshot → σ → Nat × σ)
    (outcome : Nat → Except Nat AxumResponse) :
    ∀ (fuel : Nat) (alive : List (Nat × Snapshot)) (tried : List Nat) (st : σ),
      (dispatchLoop sel outcome fuel alive tried st).2 ≤ alive.length := by
  intro fuel
  induction fuel with
  | zero => intro alive tried st; simp [dispatchLoop]
  | succ n ih =>
      intro alive tried st
      simp only [dispatchLoop]
      split
      · simp
      · split
        · next hs =>
            have hlen : (alive.eraseIdx (sel (alive.map Prod.snd) st).1).length
                = alive.length - 1 := List.length_eraseIdx_of_lt hs
            have hpos : 0 < alive.length := Nat.lt_of_le_of_lt (Nat.zero_le _) hs
            split
            · exact (ih _ _ _).trans (by rw [hlen]; omega)
            · split
              · simpa using hpos
              · split
                · split
                  · have h := ih (alive.eraseIdx (sel (alive.map Prod.snd) st).1)
                      ((alive.get ⟨(sel (alive.map Prod.snd) st).1, hs⟩).1 :: tried)
                      (sel (alive.map Prod.snd) st).2
                    rw [hlen] at h
                    exact Nat.le_trans (Nat.succ_le_succ h) (by omega)
                  · simpa using hpos
                · simpa using hpos
        · simp

/-- The running minimum of `lcLoop` never increases. -/
theorem lcLoop_fst_le (l : List Snapshot) :
    ∀ i least idx, (lcLoop i least idx l).1 ≤ least := by
  induction l with
  | nil => intro i least idx; exact Nat.le_refl least
  | cons s rest ih =>
      intro i least idx
      simp only [lcLoop]
      split
      · next hq =>
          have hlt : s.con_count < least := by
            simp only [Bool.and_eq_true, decide_eq_true_eq] at hq
            exact hq.2
          exact (ih _ _ _).trans (Nat.le_of_lt hlt)
      · exact ih _ _ _

/-- The final minimum of `lcLoop` is at most the `con_count` of every alive
snapshot of the list. -/
theorem lcLoop_fst_le_alive (l : List Snapshot) :
    ∀ i least idx k sk, l.get? k = some sk → sk.is_alive = true →
      (lcLoop i least idx l).1 ≤ sk.con_count := by
  induction l with
  | nil => intro i least idx k sk h _; simp at h
  | cons s rest ih =>
      intro i least idx k sk hget halive
      cases k with
      | zero =>
          simp only [List.get?_cons_zero, Option.some.injEq] at hget
          subst hget
          simp only [lcLoop]
          split
          · next hq => exact lcLoop_fst_le rest _ _ _
          · next hq =>
              have hnlt : ¬ s.con_count < least := by
                simp only [Bool.and_eq_true, decide_eq_true_eq, halive, true_and] at hq
                exact hq
              exact (lcLoop_fst_le rest _ _ _).trans (Nat.le_of_not_lt hnlt)
      | succ k' =>
          simp only [List.get?_cons_succ] at hget
          simp only [lcLoop]
          split <;> exact ih _ _ _ k' sk hget halive

/-- Structure of the `LeastConnections` loop: either no element updates the
accumulator (all processed elements are dead or not strictly below the
incoming minimum) and the accumulator is returned unchanged, or the result
records the position and `con_count` of an alive element strictly below the
incoming minimum, and every alive element at a smaller position is strictly
above the result. -/
theorem lcLoop_spec (l : List Snapshot) :
    ∀ i least idx,
      lcLoop i least idx l = (least, idx) ∨
      ∃ k sk, l.get? k = some sk ∧ sk.is_alive = true ∧
        (lcLoop i least idx l).2 = i + k ∧
        (lcLoop i least idx l).1 = sk.con_count ∧
        sk.con_count < least ∧
        (∀ j sj, j < k → l.get? j = some sj → sj.is_alive = true →
          sk.con_count < sj.con_count) := by
  induction l with
  | nil => intro i least idx; exact Or.inl rfl
  | cons s rest ih =>
      intro i least idx
      simp only [lcLoop]
      split
      · next hq =>
          have hal : s.is_alive = true := by
            simp only [Bool.and_eq_true, decide_eq_true_eq] at hq
            exact hq.1
          have hlt : s.con_count < least := by
            simp only [Bool.and_eq_true, decide_eq_true_eq] at hq
            exact hq.2
          rcases ih (i + 1) s.con_count i with h | ⟨k', sk', hget', halive', h2, h1, hlt', hmin'⟩
          · right
            refine ⟨0, s, rfl, hal, ?_, ?_, hlt, ?_⟩
            · rw [h]; simp
            · rw [h]
            · intro j sj hj _ _; exact absurd hj (Nat.not_lt_zero j)
          · right
            refine ⟨k' + 1, sk', by simpa using hget', halive', ?_, h1,
              Nat.lt_trans hlt' hlt, ?_⟩
            · rw [h2]; omega
            · intro j sj hj hgetj halivej
              cases j with
              | zero =>
                  simp only [List.get?_cons_zero, Option.some.injEq] at hgetj
                  subst hgetj
                  exact hlt'
              | succ j' =>
                  exact hmin' j' sj (Nat.lt_of_succ_lt_succ hj) (by simpa using hgetj) halivej
      · next hq =>
          rcases ih (i + 1) least idx with h | ⟨k', sk', hget', halive', h2, h1, hlt', hmin'⟩
          · exact Or.inl h
          · right
            refine ⟨k' + 1, sk', by simpa using hget', halive', ?_, h1, hlt', ?_⟩
            · rw [h2]; omega
            · intro j sj hj hgetj halivej
              cases j with
              | zero =>
                  simp only [List.get?_cons_zero, Option.some.injEq] at hgetj
                  subst hgetj
                  have hge : least ≤ s.con_count := by
                    simp only [Bool.and_eq_true, decide_eq_true_eq, halivej, true_and] at hq
                    exact Nat.le_of_not_lt hq
                  exact Nat.lt_of_lt_of_le hlt' hge
              | succ j' =>
                  exact hmin' j' sj (Nat.lt_of_succ_lt_succ hj) (by simpa using hgetj) halivej

end LB

/-! ## Claim theorems -/

namespace LB

/-- C1: the in-flight counter is incremented exactly once per attempt, and
decremented exactly once on the success, upstream-error and timeout exits;
but on the client-build-failure exit the early `?` return (balancer.rs
line 74) skips the decrement, so that attempt's net effect on `in_flight`
is +1, not 0, contradicting the spec's "guaranteed on every exit path" and
the in-flight conservation invariant. -/
theorem C1_inflight_counter :
    (∀ r : SendResult, (try_forward_to_instance true r).2 = (1, 1)) ∧
    (∀ r : SendResult, (try_forward_to_instance false r).2 = (1, 0)) := by
  constructor
  · intro r
    cases r with
    | timeout => rfl
    | transportErr => rfl
    | response s h b =>
        simp only [try_forward_to_instance, Bool.not_true, Bool.false_eq_true, if_false]
        cases hb : isServerError s with
        | true => simp [hb]
        | false => cases b <;> simp [hb]
  · intro r; rfl

/-- C2 counterexample: with `last_healthy` unset, both a transport error and
a non-2xx response leave `is_alive = true`, while the claim requires
`is_alive ← false` in both cases. -/
theorem C2_counterexample :
    ((⟨"h", 1, 2, 30, 0, true, none⟩ : Instance).health_check .error 100).is_alive = true ∧
    ((⟨"h", 1, 2, 30, 0, true, none⟩ : Instance).health_check (.response 500) 100).is_alive
      = true ∧
    (⟨"h", 1, 2, 30, 0, true, none⟩ : Instance).last_healthy = none := by
  refine ⟨rfl, rfl, rfl⟩

/-- C2 amended: on a 2xx response `health_check` sets `is_alive := true` and
`last_healthy := now`; on a non-2xx response it changes nothing (it only
logs); on a transport error it consults `last_healthy` only when set:
`is_alive := false` exactly when `last_healthy = some lh` and
`now - lh > health_check_time_limit`, and otherwise (including the unset
case) the state is unchanged. -/
theorem C2_health_check_amended (i : Instance) (now : Nat) :
    (∀ s, isSuccess s = true →
      (i.health_check (.response s) now).is_alive = true ∧
      (i.health_check (.response s) now).last_healthy = some now) ∧
    (∀ s, isSuccess s = false → i.health_check (.response s) now = i) ∧
    (i.last_healthy = none → i.health_check .error now = i) ∧
    (∀ lh, i.last_healthy = some lh →
      (now - lh > i.health_check_time_limit →
        (i.health_check .error now).is_alive = false ∧
        (i.health_check .error now).last_healthy = some lh) ∧
      (¬ now - lh > i.health_check_time_limit → i.health_check .error now = i)) := by
  refine ⟨fun s hs => ?_, fun s hs => ?_, fun h => ?_, fun lh hlh => ⟨fun hgt => ?_, fun hle => ?_⟩⟩
  · simp [Instance.health_check, hs]
  · simp [Instance.health_check, hs]
  · simp [Instance.health_check, h]
  · simp [Instance.health_check, hlh, hgt]
  · simp [Instance.health_check, hlh, hle]

/-- C2 witness: concrete instances of the amended behaviour, including the
transport-error-with-unset-`last_healthy` case the counterexample exposes. -/
theorem C2_health_check_amended_witness :
    ((⟨"h", 1, 2, 30, 0, false, none⟩ : Instance).health_check (.response 204) 100).is_alive
      = true ∧
    (⟨"h", 1, 2, 30, 0, true, none⟩ : Instance).health_check .error 100
      = ⟨"h", 1, 2, 30, 0, true, none⟩ ∧
    ((⟨"h", 1, 2, 30, 0, true, some 10⟩ : Instance).health_check .error 100).is_alive
      = false := by
  refine ⟨((C2_health_check_amended ⟨"h", 1, 2, 30, 0, false, none⟩ 100).1 204 (by decide)).1,
    (C2_health_check_amended ⟨"h", 1, 2, 30, 0, true, none⟩ 100).2.2.1 rfl,
    (((C2_health_check_amended ⟨"h", 1, 2, 30, 0, true, some 10⟩ 100).2.2.2 10 rfl).1
      (by decide)).1⟩

/-- C3: a dispatch that starts with `N ≥ 1` alive instances and configured
`max_retries = k` (absent meaning `N`) performs at most `min(k+1, N)`
forwarding attempts: the loop's fuel is `min(k, N) + 1` and every attempt
removes the selected candidate, so the attempt count is bounded both by
`k + 1` and by `N`. -/
theorem C3_attempt_bound {σ : Type} (sel : List Snapshot → σ → Nat × σ)
    (outcome : Nat → Except Nat AxumResponse) (k : Option Nat)
    (fleet : List Instance) (st : σ)
    (hN : 1 ≤ (aliveSnapshots fleet).length) :
    (forward_request sel outcome k fleet st).2
      ≤ min (k.getD (aliveSnapshots fleet).length + 1) (aliveSnapshots fleet).length := by
  have hne : (aliveSnapshots fleet).isEmpty = false := by
    cases h : aliveSnapshots fleet with
    | nil => rw [h] at hN; simp at hN
    | cons a l => rfl
  simp only [forward_request, hne, Bool.false_eq_true, if_false]
  refine Nat.le_min.mpr ⟨?_, ?_⟩
  · exact (dispatchLoop_count_le_fuel sel outcome _ _ _ _).trans
      (Nat.succ_le_succ (Nat.min_le_left _ _))
  · exact dispatchLoop_count_le_length sel outcome _ _ _ _

/-- C3 witness: two alive instances, `max_retries = 0`, an always-failing
upstream: at most `min(0+1, 2) = 1` attempt. -/
theorem C3_attempt_bound_witness :
    (forward_request (fun _ (u : Unit) => (0, u)) (fun _ => .error 502) (some 0)
      [⟨"a", 1, 2, 30, 0, true, none⟩, ⟨"b", 1, 2, 30, 0, true, none⟩] ()).2 ≤ 1 := by
  have h := C3_attempt_bound (fun _ (u : Unit) => (0, u)) (fun _ => .error 502) (some 0)
    [⟨"a", 1, 2, 30, 0, true, none⟩, ⟨"b", 1, 2, 30, 0, true, none⟩] () (by decide)
  exact h.trans (Nat.min_le_left _ _)

/-- C7 counterexample: with one alive instance and a strategy returning the
out-of-range index 1, `forward_request` returns `SERVICE_UNAVAILABLE` (503)
— not `INTERNAL_SERVER_ERROR` (500) as the claim states: the code logs and
`break`s out of the loop (balancer.rs lines 170-173), falling through to
`Err(StatusCode::SERVICE_UNAVAILABLE)` at line 222. -/
theorem C7_counterexample :
    forward_request (fun _ (u : Unit) => (1, u)) (fun _ => .error 502) none
      [⟨"h", 1, 2, 30, 0, true, none⟩] () = (.error 503, 0) ∧
    (Except.error 503 : Except Nat AxumResponse) ≠ .error 500 := by
  refine ⟨rfl, by simp⟩

/-- C7 amended: if the strategy returns an index that is out of range of the
current candidate list, the dispatcher logs the event, stops the retry loop,
and fails the request with `SERVICE_UNAVAILABLE` (503) without performing
any forwarding attempt. -/
theorem C7_invalid_index_amended {σ : Type} (sel : List Snapshot → σ → Nat × σ)
    (outcome : Nat → Except Nat AxumResponse) (max_retries : Option Nat)
    (fleet : List Instance) (st : σ)
    (hne : (aliveSnapshots fleet).isEmpty = false)
    (hinv : (aliveSnapshots fleet).length
      ≤ (sel ((aliveSnapshots fleet).map Prod.snd) st).1) :
    forward_request sel outcome max_retries fleet st = (.error 503, 0) := by
  simp only [forward_request, hne, Bool.false_eq_true, if_false]
  simp only [dispatchLoop, hne, Bool.false_eq_true, if_false]
  rw [dif_neg (Nat.not_lt.mpr hinv)]

/-- C7 witness: the amended statement at a concrete fleet and strategy. -/
theorem C7_invalid_index_amended_witness :
    forward_request (fun snaps (u : Unit) => (snaps.length + 3, u)) (fun _ => .error 502)
      (some 5) [⟨"h", 1, 2, 30, 0, true, none⟩, ⟨"g", 1, 2, 30, 0, false, none⟩] ()
      = (.error 503, 0) := by
  exact C7_invalid_index_amended (fun snaps (u : Unit) => (snaps.length + 3, u))
    (fun _ => .error 502) (some 5)
    [⟨"h", 1, 2, 30, 0, true, none⟩, ⟨"g", 1, 2, 30, 0, false, none⟩] ()
    (by decide) (by decide)

/-- C4 counterexample: starting from `RoundRobin::new` (cursor 0), two
selections over a 3-snapshot list advance the cursor to 2; a following
selection over a 1-snapshot list then returns the raw cursor 2, which is
neither `2 mod 1 = 0` nor `< 1`. -/
theorem C4_counterexample :
    RoundRobin.new = 0 ∧
    (RoundRobin.select_instance 0 [⟨0, true⟩, ⟨0, true⟩, ⟨0, true⟩]).2 = 1 ∧
    (RoundRobin.select_instance 1 [⟨0, true⟩, ⟨0, true⟩, ⟨0, true⟩]).2 = 2 ∧
    (RoundRobin.select_instance 2 [⟨0, true⟩]).1 = 2 ∧
    (2 : Nat) % 1 = 0 ∧
    ¬ (RoundRobin.select_instance 2 [⟨0, true⟩]).1 < ([⟨0, true⟩] : List Snapshot).length := by
  refine ⟨rfl, rfl, rfl, rfl, rfl, by decide⟩

/-- C4 amended: for a non-empty snapshot list, `RoundRobin::select_instance`
returns the raw cursor `k` (no modulus is applied to the returned value) and
advances the cursor to `(k+1) mod |snapshots|`; the returned index equals
`k mod |snapshots|` and is in range exactly under the extra assumption
`k < |snapshots|`, i.e. when the list has not shrunk below the cursor since
it was last advanced. -/
theorem C4_round_robin_amended (k : Nat) (snapshots : List Snapshot)
    (_hne : snapshots ≠ []) :
    RoundRobin.select_instance k snapshots = (k, (k + 1) % snapshots.length) ∧
    (k < snapshots.length →
      (RoundRobin.select_instance k snapshots).1 = k % snapshots.length ∧
      (RoundRobin.select_instance k snapshots).1 < snapshots.length) := by
  refine ⟨rfl, fun hk => ⟨?_, hk⟩⟩
  simp only [RoundRobin.select_instance]
  exact (Nat.mod_eq_of_lt hk).symm

/-- C4 witness: the amended statement at cursor 1 over a 2-snapshot list. -/
theorem C4_round_robin_amended_witness :
    RoundRobin.select_instance 1 [⟨5, true⟩, ⟨7, true⟩] = (1, 0) ∧
    (RoundRobin.select_instance 1 [⟨5, true⟩, ⟨7, true⟩]).1 = 1 % 2 := by
  have h := C4_round_robin_amended 1 [⟨5, true⟩, ⟨7, true⟩] (by decide)
  exact ⟨h.1, (h.2 (by decide)).1⟩

/-- C5: a single forward attempt classifies its outcome as the claim states
— transport error → `BAD_GATEWAY` (502), per-attempt timeout →
`GATEWAY_TIMEOUT` (504), upstream 5xx → that status, any other response
(4xx included) → relayed verbatim — and the dispatcher moves on to another
candidate exactly on the retryable (5xx) errors while an attempt budget
remains: the selected candidate is removed and the loop continues (the
attempt count growing by one); on the last permitted attempt the retryable
error is returned; a successful or non-5xx-error outcome is returned
immediately after a single attempt. -/
theorem C5_classification :
    ((try_forward_to_instance true .transportErr).1 = .error 502) ∧
    ((try_forward_to_instance true .timeout).1 = .error 504) ∧
    (∀ (s : Nat) (h : List (String × String)) (b : Option (List Nat)),
      isServerError s = true →
      (try_forward_to_instance true (.response s h b)).1 = .error s) ∧
    (∀ (s : Nat) (h : List (String × String)) (b : List Nat),
      isServerError s = false →
      (try_forward_to_instance true (.response s h (some b))).1 = .ok ⟨s, h, b⟩) ∧
    (∀ {σ : Type} (sel : List Snapshot → σ → Nat × σ)
      (outcome : Nat → Except Nat AxumResponse) (fuel : Nat)
      (alive : List (Nat × Snapshot)) (tried : List Nat) (st : σ)
      (idx : Nat) (snap : Snapshot) (e : Nat),
      alive.get? (sel (alive.map Prod.snd) st).1 = some (idx, snap) →
      idx ∉ tried → outcome idx = .error e → isServerError e = true →
      dispatchLoop sel outcome (fuel + 2) alive tried st
        = ((dispatchLoop sel outcome (fuel + 1)
              (alive.eraseIdx (sel (alive.map Prod.snd) st).1) (idx :: tried)
              (sel (alive.map Prod.snd) st).2).1,
           (dispatchLoop sel outcome (fuel + 1)
              (alive.eraseIdx (sel (alive.map Prod.snd) st).1) (idx :: tried)
              (sel (alive.map Prod.snd) st).2).2 + 1)) ∧
    (∀ {σ : Type} (sel : List Snapshot → σ → Nat × σ)
      (outcome : Nat → Except Nat AxumResponse)
      (alive : List (Nat × Snapshot)) (tried : List Nat) (st : σ)
      (idx : Nat) (snap : Snapshot) (e : Nat),
      alive.get? (sel (alive.map Prod.snd) st).1 = some (idx, snap) →
      idx ∉ tried → outcome idx = .error e → isServerError e = true →
      dispatchLoop sel outcome 1 alive tried st = (.error e, 1)) ∧
    (∀ {σ : Type} (sel : List Snapshot → σ → Nat × σ)
      (outcome : Nat → Except Nat AxumResponse) (fuel : Nat)
      (alive : List (Nat × Snapshot)) (tried : List Nat) (st : σ)
      (idx : Nat) (snap : Snapshot) (resp : AxumResponse),
      alive.get? (sel (alive.map Prod.snd) st).1 = some (idx, snap) →
      idx ∉ tried → outcome idx = .ok resp →
      dispatchLoop sel outcome (fuel + 1) alive tried st = (.ok resp, 1)) ∧
    (∀ {σ : Type} (sel : List Snapshot → σ → Nat × σ)
      (outcome : Nat → Except Nat AxumResponse) (fuel : Nat)
      (alive : List (Nat × Snapshot)) (tried : List Nat) (st : σ)
      (idx : Nat) (snap : Snapshot) (e : Nat),
      alive.get? (sel (alive.map Prod.snd) st).1 = some (idx, snap) →
      idx ∉ tried → outcome idx = .error e → isServerError e = false →
      dispatchLoop sel outcome (fuel + 1) alive tried st = (.error e, 1)) := by
  refine ⟨rfl, rfl, ?_, ?_, ?_, ?_, ?_, ?_⟩
  · intro s h b hs
    simp [try_forward_to_instance, hs]
  · intro s h b hs
    simp [try_forward_to_instance, hs]
  · intro σ sel outcome fuel alive tried st idx snap e hget htried hout he
    obtain ⟨hs, hget'⟩ := List.get?_eq_some.mp hget
    have hne : alive.isEmpty = false := by
      rcases alive with _ | ⟨a, l⟩
      · simp at hs
      · rfl
    simp only [dispatchLoop, hne, Bool.false_eq_true, if_false]
    rw [dif_pos hs, hget']
    dsimp only
    rw [if_neg htried, hout]
    dsimp only
    rw [if_pos he, if_pos (Nat.succ_pos fuel)]
  · intro σ sel outcome alive tried st idx snap e hget htried hout he
    obtain ⟨hs, hget'⟩ := List.get?_eq_some.mp hget
    have hne : alive.isEmpty = false := by
      rcases alive with _ | ⟨a, l⟩
      · simp at hs
      · rfl
    simp only [dispatchLoop, hne, Bool.false_eq_true, if_false]
    rw [dif_pos hs, hget']
    dsimp only
    rw [if_neg htried, hout]
    dsimp only
    rw [if_pos he, if_neg (Nat.lt_irrefl 0)]
  · intro σ sel outcome fuel alive tried st idx snap resp hget htried hout
    obtain ⟨hs, hget'⟩ := List.get?_eq_some.mp hget
    have hne : alive.isEmpty = false := by
      rcases alive with _ | ⟨a, l⟩
      · simp at hs
      · rfl
    simp only [dispatchLoop, hne, Bool.false_eq_true, if_false]
    rw [dif_pos hs, hget']
    dsimp only
    rw [if_neg htried, hout]
  · intro σ sel outcome fuel alive tried st idx snap e hget htried hout he
    obtain ⟨hs, hget'⟩ := List.get?_eq_some.mp hget
    have hne : alive.isEmpty = false := by
      rcases alive with _ | ⟨a, l⟩
      · simp at hs
      · rfl
    simp only [dispatchLoop, hne, Bool.false_eq_true, if_false]
    rw [dif_pos hs, hget']
    dsimp only
    rw [if_neg htried, hout]
    dsimp only
    rw [if_neg (by rw [he]; exact Bool.false_ne_true)]

/-- C5 witness: the classification and dispatcher reactions at concrete
inputs — a 503 upstream response surfaces as `Err 503`, a 404 response is
relayed, a retryable 502 on the last permitted attempt is returned after one
attempt, and a 200 response is returned immediately. -/
theorem C5_classification_witness :
    (try_forward_to_instance true (.response 503 [] (some [7]))).1 = .error 503 ∧
    (try_forward_to_instance true (.response 404 [("h", "v")] (some [1]))).1
      = .ok ⟨404, [("h", "v")], [1]⟩ ∧
    dispatchLoop (fun _ (u : Unit) => (0, u)) (fun _ => .error 502) 1
      [(0, ⟨0, true⟩)] [] () = (.error 502, 1) ∧
    dispatchLoop (fun _ (u : Unit) => (0, u)) (fun _ => .ok ⟨200, [], [2]⟩) 3
      [(0, ⟨0, true⟩)] [] () = (.ok ⟨200, [], [2]⟩, 1) := by
  refine ⟨C5_classification.2.2.1 503 [] (some [7]) (by decide),
    C5_classification.2.2.2.1 404 [("h", "v")] [1] (by decide),
    C5_classification.2.2.2.2.2.1 (fun _ (u : Unit) => (0, u)) (fun _ => .error 502)
      [(0, ⟨0, true⟩)] [] () 0 ⟨0, true⟩ 502 rfl (by simp) rfl (by decide),
    C5_classification.2.2.2.2.2.2.1 (fun _ (u : Unit) => (0, u))
      (fun _ => .ok ⟨200, [], [2]⟩) 2 [(0, ⟨0, true⟩)] [] () 0 ⟨0, true⟩
      ⟨200, [], [2]⟩ rfl (by simp) rfl⟩

/-- C6: when every instance in the fleet is dead the alive filter is empty,
`forward_request` fails with `SERVICE_UNAVAILABLE` (503) having performed
zero forwarding attempts, and the frontend handler turns that into a 503
response with the plain-text body "Service unavailable (no alive servers)". -/
theorem C6_no_alive_503 {σ : Type} (sel : List Snapshot → σ → Nat × σ)
    (outcome : Nat → Except Nat AxumResponse) (max_retries : Option Nat)
    (fleet : List Instance) (st : σ)
    (hdead : ∀ i ∈ fleet, i.is_alive = false) :
    forward_request sel outcome max_retries fleet st = (.error 503, 0) ∧
    proxy_handler (forward_request sel outcome max_retries fleet st).1
      = .errorText 503 "Service unavailable (no alive servers)" := by
  have halive : aliveSnapshots fleet = [] := aliveSnapshotsAux_eq_nil fleet 0 hdead
  have h1 : forward_request sel outcome max_retries fleet st = (.error 503, 0) := by
    simp [forward_request, halive]
  exact ⟨h1, by rw [h1]; rfl⟩

/-- C6 witness: a concrete two-instance all-dead fleet. -/
theorem C6_no_alive_503_witness :
    forward_request (fun _ (u : Unit) => (0, u)) (fun _ => .error 502) none
      [⟨"a", 1, 2, 30, 0, false, none⟩, ⟨"b", 1, 2, 30, 0, false, none⟩] ()
      = (.error 503, 0) := by
  exact (C6_no_alive_503 (fun _ (u : Unit) => (0, u)) (fun _ => .error 502) none
    [⟨"a", 1, 2, 30, 0, false, none⟩, ⟨"b", 1, 2, 30, 0, false, none⟩] ()
    (by intro i hi; fin_cases hi <;> rfl)).1

/-- C9 counterexample: with the spec's own example configuration
(`base_url: "10.0.0.1"`, `rest_port: 8000`) the produced URL is
`10.0.0.1:8000`, which contains no `/` at all and hence is not of the shape
`scheme://base_host:port`; the code never inserts a scheme. -/
theorem C9_counterexample :
    (⟨"10.0.0.1", 8000, 50051, 30, 0, true, none⟩ : Instance).get_rest_url
      = "10.0.0.1:8000" ∧
    ("10.0.0.1:8000".toList.contains '/') = false := by
  refine ⟨rfl, by decide⟩

/-- C9 amended: the URLs are the verbatim concatenation
`base_url ++ ":" ++ port` with the respective configured port, and an
outbound forward targets that URL concatenated with the inbound
path-and-query; the `scheme://` prefix appears exactly when the configured
`base_url` itself carries it (the balancer adds no scheme and certificate
presence plays no part), in which case the URLs have the claimed shape
`scheme://host:port` and `scheme://host:port/<path-and-query>`. -/
theorem C9_url_amended (i : Instance) (pq scheme host : String) :
    i.get_rest_url = i.base_url ++ ":" ++ toString i.rest_port ∧
    i.get_grpc_url = i.base_url ++ ":" ++ toString i.grpc_port ∧
    outboundUrl i.get_rest_url pq = i.base_url ++ ":" ++ toString i.rest_port ++ pq ∧
    (i.base_url = scheme ++ "://" ++ host →
      i.get_rest_url = scheme ++ "://" ++ host ++ ":" ++ toString i.rest_port ∧
      i.get_grpc_url = scheme ++ "://" ++ host ++ ":" ++ toString i.grpc_port ∧
      outboundUrl i.get_rest_url pq
        = scheme ++ "://" ++ host ++ ":" ++ toString i.rest_port ++ pq) := by
  refine ⟨rfl, rfl, rfl, fun hb => ?_⟩
  simp [Instance.get_rest_url, Instance.get_grpc_url, outboundUrl, hb]

/-- C9 witness: the amended statement at a scheme-carrying `base_url`. -/
theorem C9_url_amended_witness :
    (⟨"http://10.0.0.1", 8000, 50051, 30, 0, true, none⟩ : Instance).get_rest_url
      = "http://10.0.0.1:8000" ∧
    outboundUrl
      (⟨"http://10.0.0.1", 8000, 50051, 30, 0, true, none⟩ : Instance).get_rest_url
      "/notes?id=1" = "http://10.0.0.1:8000/notes?id=1" := by
  have h := (C9_url_amended ⟨"http://10.0.0.1", 8000, 50051, 30, 0, true, none⟩
    "/notes?id=1" "http" "10.0.0.1").2.2.2 rfl
  exact ⟨by rw [h.1]; rfl, by rw [h.2.2]; rfl⟩

/-- C8 counterexample: with a dead snapshot at index 0 and a single alive
snapshot at index 1 whose `con_count` equals `u32::MAX`,
`LeastConnections::select_instance` returns 0 — the index of the dead
snapshot — because the strict comparison `con_count < least_connections`
never fires against the `u32::MAX` sentinel; the claim requires the index of
the minimal alive snapshot, i.e. 1. -/
theorem C8_counterexample :
    LeastConnections.select_instance [⟨0, false⟩, ⟨U32_MAX, true⟩] = 0 ∧
    ([⟨0, false⟩, ⟨U32_MAX, true⟩] : List Snapshot).get? 0 = some ⟨0, false⟩ ∧
    (⟨0, false⟩ : Snapshot).is_alive = false ∧
    (⟨U32_MAX, true⟩ : Snapshot).is_alive = true := by
  refine ⟨rfl, rfl, rfl, rfl⟩

/-- C8 amended: `LeastConnections::select_instance` returns the lowest-index
argmin of `con_count` among the alive snapshots whose `con_count` is
strictly below `u32::MAX`; when no such snapshot exists (empty list, no
alive snapshot, or every alive snapshot at the `u32::MAX` sentinel) it
returns 0. Given alive snapshots with `in_flight = [3, 1, 2]` it returns
index 1. -/
theorem C8_least_connections_amended :
    (∀ snapshots : List Snapshot,
      (∀ s ∈ snapshots, s.is_alive = true → U32_MAX ≤ s.con_count) →
      LeastConnections.select_instance snapshots = 0) ∧
    (∀ (snapshots : List Snapshot) (i : Nat) (si : Snapshot),
      snapshots.get? i = some si → si.is_alive = true → si.con_count < U32_MAX →
      ∃ sr, snapshots.get? (LeastConnections.select_instance snapshots) = some sr ∧
        sr.is_alive = true ∧
        (∀ j sj, snapshots.get? j = some sj → sj.is_alive = true →
          sr.con_count ≤ sj.con_count) ∧
        (∀ j sj, j < LeastConnections.select_instance snapshots →
          snapshots.get? j = some sj → sj.is_alive = true →
          sr.con_count < sj.con_count)) ∧
    LeastConnections.select_instance [⟨3, true⟩, ⟨1, true⟩, ⟨2, true⟩] = 1 := by
  refine ⟨?_, ?_, rfl⟩
  · intro snapshots hnone
    rcases lcLoop_spec snapshots 0 U32_MAX 0 with h | ⟨k, sk, hget, halive, _, _, hlt, _⟩
    · simp only [LeastConnections.select_instance, h]
    · exact absurd hlt (Nat.not_lt.mpr (hnone sk (List.get?_mem hget) halive))
  · intro snapshots i si hget halive hlt
    have hle : (lcLoop 0 U32_MAX 0 snapshots).1 ≤ si.con_count :=
      lcLoop_fst_le_alive snapshots 0 U32_MAX 0 i si hget halive
    rcases lcLoop_spec snapshots 0 U32_MAX 0 with h | ⟨k, sk, hgetk, halivek, h2, h1, _, hmin⟩
    · rw [h] at hle
      exact absurd (Nat.lt_of_le_of_lt hle hlt) (Nat.lt_irrefl U32_MAX)
    · have hsel : LeastConnections.select_instance snapshots = k := by
        simp only [LeastConnections.select_instance, h2, Nat.zero_add]
      refine ⟨sk, by rw [hsel]; exact hgetk, halivek, ?_, ?_⟩
      · intro j sj hgetj halivej
        have := lcLoop_fst_le_alive snapshots 0 U32_MAX 0 j sj hgetj halivej
        rw [h1] at this
        exact this
      · intro j sj hj hgetj halivej
        rw [hsel] at hj
        exact hmin j sj hj hgetj halivej

/-- C8 witness: the amended statement at concrete inputs — an all-dead list
returns 0, a list whose only alive snapshot sits at the `u32::MAX` sentinel
returns 0, and the claim's own example `[3, 1, 2]` returns index 1, an index
that is in range. -/
theorem C8_least_connections_amended_witness :
    LeastConnections.select_instance [⟨5, false⟩] = 0 ∧
    LeastConnections.select_instance [⟨0, false⟩, ⟨U32_MAX, true⟩] = 0 ∧
    LeastConnections.select_instance [⟨3, true⟩, ⟨1, true⟩, ⟨2, true⟩] = 1 ∧
    LeastConnections.select_instance [⟨3, true⟩, ⟨1, true⟩, ⟨2, true⟩]
      < ([⟨3, true⟩, ⟨1, true⟩, ⟨2, true⟩] : List Snapshot).length := by
  refine ⟨C8_least_connections_amended.1 [⟨5, false⟩] (by decide),
    C8_least_connections_amended.1 [⟨0, false⟩, ⟨U32_MAX, true⟩] (by decide),
    C8_least_connections_amended.2.2, ?_⟩
  obtain ⟨sr, hget, -, -, -⟩ := C8_least_connections_amended.2.1
    [⟨3, true⟩, ⟨1, true⟩, ⟨2, true⟩] 1 ⟨1, true⟩ rfl rfl (by decide)
  obtain ⟨hlt, -⟩ := List.get?_eq_some.mp hget
  exact hlt

/-- C10: every dispatcher error status is rendered by the frontend handlers
as the fixed plain-text body "Service unavailable (no alive servers)", and
an upstream 5xx response is collapsed to `Err(status)` by the forwarding
attempt — its headers and body never reach the result, so two 5xx responses
differing only in headers and body produce the same relayed error. -/
theorem C10_error_body_and_discard :
    (∀ s : Nat, proxy_handler (.error s) = .errorText s unavailableBody) ∧
    (∀ (s : Nat) (h : List (String × String)) (b : Option (List Nat)),
      isServerError s = true → (try_forward_to_instance true (.response s h b)).1 = .error s) ∧
    (∀ (s : Nat) (h h' : List (String × String)) (b b' : Option (List Nat)),
      isServerError s = true →
      (try_forward_to_instance true (.response s h b)).1
        = (try_forward_to_instance true (.response s h' b')).1) := by
  have key : ∀ (s : Nat) (h : List (String × String)) (b : Option (List Nat)),
      isServerError s = true →
      (try_forward_to_instance true (.response s h b)).1 = .error s := by
    intro s h b hs
    simp [try_forward_to_instance, hs]
  exact ⟨fun s => rfl, key, fun s h h' b b' hs => by rw [key s h b hs, key s h' b' hs]⟩

/-- C10 witness: a 503 upstream response with nontrivial headers and body is
relayed as bare `Err 503`, and the handler attaches the fixed body. -/
theorem C10_error_body_and_discard_witness :
    (try_forward_to_instance true (.response 503 [("x-secret", "v")] (some [1, 2]))).1
      = .error 503 ∧
    proxy_handler (.error 503) = .errorText 503 unavailableBody := by
  exact ⟨C10_error_body_and_discard.2.1 503 [("x-secret", "v")] (some [1, 2]) (by decide),
    C10_error_body_and_discard.1 503⟩

end LB
